import Mathlib

/-!
Shallow embedding of the vibecafe-backend recommendation subsystem:
the rule-based fallback scorer, the two recommendation-engine variants,
the geo-proximity filter, and the recommendations route logic,
together with theorems checking the specification's claims.
-/

namespace VibeCafe

/-- Venue record carrying exactly the attributes the recommendation core
reads: identifier, coordinates, and the categorical/boolean tags used by
`calculateFallbackScore` and `getCafesNearLocation` (schema fields the
core never reads are omitted). -/
structure Cafe where
  id : Int
  latitude : ℝ
  longitude : ℝ
  budgetRange : String
  ambience : String
  noiseLevel : String
  lighting : String
  seatingStyle : String
  plugPoints : Bool
  petFriendly : Bool
  instaWorthiness : String
  workFriendly : Bool
  wifiQuality : String

/-- Quiz response (preference profile) as the scorer reads it: the
`ambience` field is optional, mirroring the source's
`quizResponse.ambience?.includes(...)` optional-chaining access. -/
structure QuizResponse where
  budget : String
  ambience : Option (List String)
  mood : String
  petFriendly : Bool

/-- Ambience-preference test of the source, line 61:
`quizResponse.ambience?.includes(cafe.ambience)`; a missing ambience
list is falsy under optional chaining. -/
def ambienceMatches (quizResponse : QuizResponse) (cafe : Cafe) : Bool :=
  match quizResponse.ambience with
  | some l => l.contains cafe.ambience
  | none => false

/-- One `if (cond) score += points;` statement of the source scorer:
adds `points` to the running score exactly when `cond` holds. -/
def addIf (cond : Prop) [Decidable cond] (points score : Int) : Int :=
  if cond then score + points else score

/-- Embeds `RecombeeRecommendationEngine.calculateFallbackScore`
(src/recommendations.ts lines 54-91): a mutable accumulator `score`
starting at 0, updated by sequential conditional additions (`addIf`,
innermost first), with the mood `switch` as a literal-comparison chain. -/
def calculateFallbackScore (quizResponse : QuizResponse) (cafe : Cafe) : Int :=
  let score : Int := 0
  let score := addIf (quizResponse.budget = cafe.budgetRange) 3 score
  let score := addIf (ambienceMatches quizResponse cafe) 4 score
  let score :=
    if quizResponse.mood = "study" then
      addIf cafe.plugPoints 1 (addIf cafe.workFriendly 2 (addIf (cafe.noiseLevel = "Quiet") 3 score))
    else if quizResponse.mood = "work" then
      addIf cafe.plugPoints 2 (addIf (cafe.wifiQuality = "Excellent") 2 (addIf cafe.workFriendly 4 score))
    else if quizResponse.mood = "date" then
      addIf (cafe.seatingStyle = "Booths") 1 (addIf (cafe.lighting = "Moody") 2 (addIf (cafe.ambience = "Aesthetic") 3 score))
    else if quizResponse.mood = "hangout" then
      addIf (cafe.ambience = "Cozy") 2 (addIf (cafe.noiseLevel = "Social") 2 score)
    else score
  let score := addIf (cafe.instaWorthiness = "High") 2 score
  addIf (cafe.petFriendly && quizResponse.petFriendly) 1 score

/-- Modelled from the spec: the §4.2 rule table as a plain sum of the
fifteen row contributions (each row fires independently; the
desired-ambience set is the quiz's ambience list, empty when absent).
Used to compare the source's sequential accumulator against the
spec's additive table. -/
def specRuleTableScore (profile : QuizResponse) (venue : Cafe) : Int :=
  (if profile.budget = venue.budgetRange then 3 else 0)
  + (if venue.ambience ∈ profile.ambience.getD [] then 4 else 0)
  + (if profile.mood = "study" ∧ venue.noiseLevel = "Quiet" then 3 else 0)
  + (if profile.mood = "study" ∧ venue.workFriendly then 2 else 0)
  + (if profile.mood = "study" ∧ venue.plugPoints then 1 else 0)
  + (if profile.mood = "work" ∧ venue.workFriendly then 4 else 0)
  + (if profile.mood = "work" ∧ venue.wifiQuality = "Excellent" then 2 else 0)
  + (if profile.mood = "work" ∧ venue.plugPoints then 2 else 0)
  + (if profile.mood = "date" ∧ venue.ambience = "Aesthetic" then 3 else 0)
  + (if profile.mood = "date" ∧ venue.lighting = "Moody" then 2 else 0)
  + (if profile.mood = "date" ∧ venue.seatingStyle = "Booths" then 1 else 0)
  + (if profile.mood = "hangout" ∧ venue.noiseLevel = "Social" then 2 else 0)
  + (if profile.mood = "hangout" ∧ venue.ambience = "Cozy" then 2 else 0)
  + (if venue.instaWorthiness = "High" then 2 else 0)
  + (if venue.petFriendly ∧ profile.petFriendly then 1 else 0)

/-- Modelled from the spec: the mood-independent rows of the §4.2 table
(budget, ambience, insta-worthiness, pet-friendliness). -/
def moodIndependentScore (profile : QuizResponse) (venue : Cafe) : Int :=
  (if profile.budget = venue.budgetRange then 3 else 0)
  + (if venue.ambience ∈ profile.ambience.getD [] then 4 else 0)
  + (if venue.instaWorthiness = "High" then 2 else 0)
  + (if venue.petFriendly ∧ profile.petFriendly then 1 else 0)

/-- Transient scored candidate: venue identifier plus score, as built by
`getFallbackRecommendations` (src/recommendations.ts lines 43-46). -/
structure ScoredCafe where
  id : Int
  score : Int
deriving DecidableEq, Repr

/-- The comparator `(a, b) => b.score - a.score` of line 49, as the
boolean "a may precede b" relation of a stable sort: a sorts before b
exactly when the comparator is non-positive, i.e. `b.score ≤ a.score`. -/
def byScoreDesc (a b : ScoredCafe) : Bool :=
  decide (b.score ≤ a.score)

namespace RecombeeRecommendationEngine

/-- The `scoredCafes` intermediate list of lines 43-46: each cafe mapped
to its id and fallback score. -/
def scoredCafes (quizResponse : QuizResponse) (cafes : List Cafe) : List ScoredCafe :=
  cafes.map fun cafe => { id := cafe.id, score := calculateFallbackScore quizResponse cafe }

/-- The stable descending-score sort of line 49. ECMAScript's
`Array.prototype.sort` is required to be stable, so it is embedded as a
stable merge sort under `byScoreDesc`. -/
def sortedScoredCafes (quizResponse : QuizResponse) (cafes : List Cafe) : List ScoredCafe :=
  (scoredCafes quizResponse cafes).mergeSort byScoreDesc

/-- Embeds `RecombeeRecommendationEngine.getFallbackRecommendations`
(lines 41-52): score, stable-sort descending, `slice(0, 10)`, project ids. -/
def getFallbackRecommendations (quizResponse : QuizResponse) (cafes : List Cafe) : List Int :=
  ((sortedScoredCafes quizResponse cafes).take 10).map fun item => item.id

/-- Engine-instance state: the only instance field, `isInitialized`
(line 16), initially `false`. -/
structure State where
  isInitialized : Bool

/-- The freshly constructed engine (line 16: `isInitialized = false`). -/
def State.initial : State := { isInitialized := false }

/-- Embeds `initialize` (lines 18-21): sets `isInitialized` to true. -/
def State.doInitialize (_ : State) : State := { isInitialized := true }

/-- Embeds `addUser` (lines 23-26): logs only, no state change. -/
def State.addUser (s : State) (_userId : Int) : State := s

/-- Embeds `addCafe` (lines 28-30): logs only, no state change. -/
def State.addCafe (s : State) (_cafe : Cafe) : State := s

/-- Embeds `addInteraction` (lines 32-34): logs only, no state change. -/
def State.addInteraction (s : State) (_userId _cafeId : Int) (_kind : String) : State := s

/-- Embeds `getRecommendations` (lines 36-39): returns `[]`
unconditionally ("Use fallback recommendations for now"). -/
def getRecommendations (_s : State) (_userId : Int) (_count : Int) : List Int := []

end RecombeeRecommendationEngine

namespace AlgoliaRecommendationEngine

/-- Embeds `AlgoliaRecommendationEngine.getRecommendations`
(lines 111-114): returns `[]` unconditionally. This variant is
stateless (all ingestion methods are no-ops), so no state argument. -/
def getRecommendations (_userId : Int) (_count : Int) : List Int := []

/-- Embeds `AlgoliaRecommendationEngine.getFallbackRecommendations`
(lines 116-119): `cafes.slice(0, 5).map(cafe => cafe.id)`. -/
def getFallbackRecommendations (_quizResponse : QuizResponse) (cafes : List Cafe) : List Int :=
  (cafes.take 5).map fun cafe => cafe.id

end AlgoliaRecommendationEngine

/-- One ingestion/lifecycle call of the engine interface, used to state
claims quantified over arbitrary prior call sequences. -/
inductive EngineCall where
  | doInitialize
  | addUser (userId : Int)
  | addCafe (cafe : Cafe)
  | addInteraction (userId cafeId : Int) (kind : String)

/-- Replay a call sequence against a Recombee engine state. -/
def RecombeeRecommendationEngine.State.replay
    (s : RecombeeRecommendationEngine.State) :
    List EngineCall → RecombeeRecommendationEngine.State
  | [] => s
  | c :: rest =>
      match c with
      | .doInitialize => (s.doInitialize).replay rest
      | .addUser u => (s.addUser u).replay rest
      | .addCafe cafe => (s.addCafe cafe).replay rest
      | .addInteraction u cafe k => (s.addInteraction u cafe k).replay rest

/-- Degrees-to-radians conversion applied by the SQL `radians(...)`. -/
noncomputable def radians (deg : ℝ) : ℝ := deg * Real.pi / 180

/-- The distance expression of the SQL query in
`DatabaseStorage.getCafesNearLocation` (src/storage.ts lines 84-92):
`6371 * acos(cos(radians(lat)) * cos(radians(cafe.lat)) *
cos(radians(cafe.lng) - radians(lng)) + sin(radians(lat)) *
sin(radians(cafe.lat)))` — the spherical law of cosines. -/
noncomputable def sqlCosineDistance (lat lng : ℝ) (cafe : Cafe) : ℝ :=
  6371 * Real.arccos
    (Real.cos (radians lat) * Real.cos (radians cafe.latitude) *
      Real.cos (radians cafe.longitude - radians lng) +
      Real.sin (radians lat) * Real.sin (radians cafe.latitude))

/-- Modelled from the spec (§4.1): the haversine great-circle distance
`d = 2R·asin(sqrt(sin²(Δlat/2) + cos(lat1)·cos(lat2)·sin²(Δlng/2)))`
on a sphere of radius R = 6371 km, inputs in degrees. -/
noncomputable def haversineDistance (lat1 lng1 lat2 lng2 : ℝ) : ℝ :=
  2 * 6371 * Real.arcsin
    (Real.sqrt
      (Real.sin ((radians lat2 - radians lat1) / 2) ^ 2 +
        Real.cos (radians lat1) * Real.cos (radians lat2) *
          Real.sin ((radians lng2 - radians lng1) / 2) ^ 2))

/-- Error taxonomy of the storage boundary as the spec names it; the
source's `getCafesNearLocation` has no validation path, so this is only
used to state what the code does NOT return. -/
inductive StorageError where
  | invalidArgument
deriving DecidableEq

/-- Embeds `DatabaseStorage.getCafesNearLocation` (src/storage.ts lines
78-94): keeps exactly the rows whose law-of-cosines distance is `≤
radiusKm`, in table order; the function has no radius validation and no
error path of its own, so it always returns a result. -/
noncomputable def getCafesNearLocation (cafes : List Cafe) (lat lng radiusKm : ℝ) :
    Except StorageError (List Cafe) :=
  open Classical in
  Except.ok (cafes.filter fun cafe => decide (sqlCosineDistance lat lng cafe ≤ radiusKm))

/-- Embeds the id-selection logic of `GET /api/users/:id/recommendations`
(src/unnamed/part_001 lines 171-180): take the engine's personalized
ids; if that list is empty AND the user has stored quiz responses,
replace it by the fallback ids over all cafes; `user.quizResponses`
being absent is falsy, leaving the (empty) personalized list. -/
def recommendationIds (personalizedIds : List Int)
    (quizResponses : Option QuizResponse) (allCafes : List Cafe) : List Int :=
  if personalizedIds.length = 0 then
    match quizResponses with
    | some quiz => RecombeeRecommendationEngine.getFallbackRecommendations quiz allCafes
    | none => personalizedIds
  else personalizedIds


/-! ### Concrete sample data used by witnesses and counterexamples -/

/-- Neutral test venue (id 1): no tag matches any profile below, so its
fallback score is 0 for those profiles. -/
def cafeBase : Cafe :=
  { id := 1, latitude := 0, longitude := 0, budgetRange := "", ambience := "",
    noiseLevel := "", lighting := "", seatingStyle := "", plugPoints := false,
    petFriendly := false, instaWorthiness := "", workFriendly := false,
    wifiQuality := "" }

/-- Copy of `cafeBase` with a different identifier (id 2), same tags. -/
def cafeSecond : Cafe := { cafeBase with id := 2 }

/-- Work-friendly variant of `cafeBase` (id 2). -/
def cafeWorkFriendly : Cafe := { cafeBase with id := 2, workFriendly := true }

/-- Test profile with mood `work`. -/
def quizWork : QuizResponse :=
  { budget := "₹", ambience := none, mood := "work", petFriendly := false }

/-- Test profile whose mood is outside of study/work/date/hangout. -/
def offMoodQuiz : QuizResponse :=
  { budget := "₹", ambience := none, mood := "party", petFriendly := true }

/-- Scenario A profile of spec §8. -/
def scenarioAProfile : QuizResponse :=
  { budget := "₹₹", ambience := some ["Cozy"], mood := "study", petFriendly := false }

/-- Scenario A venue of spec §8 (attributes not fixed by the scenario are
neutral). -/
def scenarioAVenue : Cafe :=
  { cafeBase with
    id := 7, budgetRange := "₹₹", ambience := "Cozy",
    noiseLevel := "Quiet", workFriendly := true, plugPoints := true,
    instaWorthiness := "Low" }

/-! ### Helper lemmas about the scorer -/

lemma ambienceMatches_iff (q : QuizResponse) (c : Cafe) :
    ambienceMatches q c = true ↔ c.ambience ∈ q.ambience.getD [] := by
  cases h : q.ambience <;> simp [ambienceMatches, h]

lemma addIf_eq (p : Prop) [Decidable p] (k s : Int) :
    addIf p k s = s + (if p then k else 0) := by
  unfold addIf
  split <;> omega

lemma score_eq_table (q : QuizResponse) (c : Cafe) :
    calculateFallbackScore q c = specRuleTableScore q c := by
  unfold calculateFallbackScore specRuleTableScore
  simp only [addIf_eq, ambienceMatches_iff, Bool.and_eq_true]
  by_cases h1 : q.mood = "study"
  · simp [h1]
  · by_cases h2 : q.mood = "work"
    · simp [h2, h1]
    · by_cases h3 : q.mood = "date"
      · simp [h3, h1, h2]
      · by_cases h4 : q.mood = "hangout"
        · simp [h4, h1, h2, h3]
        · simp [h1, h2, h3, h4]

lemma score_off_mood (q : QuizResponse) (c : Cafe)
    (h : q.mood ∉ (["study", "work", "date", "hangout"] : List String)) :
    calculateFallbackScore q c = moodIndependentScore q c := by
  simp only [List.mem_cons, List.not_mem_nil, not_or, or_false] at h
  obtain ⟨h1, h2, h3, h4⟩ := h
  unfold calculateFallbackScore moodIndependentScore
  simp only [addIf_eq, ambienceMatches_iff, Bool.and_eq_true]
  simp [h1, h2, h3, h4]

/-! ### Helper lemmas about the stable sort -/

lemma byScoreDesc_trans (a b c : ScoredCafe)
    (hab : byScoreDesc a b) (hbc : byScoreDesc b c) : byScoreDesc a c := by
  simp only [byScoreDesc, decide_eq_true_eq] at *
  omega

lemma byScoreDesc_total (a b : ScoredCafe) : byScoreDesc a b || byScoreDesc b a := by
  simp only [byScoreDesc, Bool.or_eq_true, decide_eq_true_eq]
  omega

lemma mergeSort_pair {α : Type} (le : α → α → Bool) (x y : α) :
    [x, y].mergeSort le = if le x y then [x, y] else [y, x] := by
  rw [List.mergeSort]
  simp [List.splitInTwo_fst, List.splitInTwo_snd, List.merge]

lemma ids_scoredCafes (q : QuizResponse) (cafes : List Cafe) :
    (RecombeeRecommendationEngine.scoredCafes q cafes).map (fun s => s.id) =
      cafes.map fun c => c.id := by
  simp [RecombeeRecommendationEngine.scoredCafes, List.map_map, Function.comp]

/-! ### Helper lemmas for the geo filter: the SQL law-of-cosines distance
equals the haversine distance of the spec -/

lemma sin_half_sq (θ : ℝ) : Real.sin (θ / 2) ^ 2 = (1 - Real.cos θ) / 2 := by
  have h := Real.cos_two_mul (θ / 2)
  have h2 := Real.sin_sq_add_cos_sq (θ / 2)
  have h3 : 2 * (θ / 2) = θ := by ring
  rw [h3] at h
  linarith

lemma cos_sum_bounds (a b c : ℝ) :
    -1 ≤ Real.cos a * Real.cos b * Real.cos c + Real.sin a * Real.sin b ∧
      Real.cos a * Real.cos b * Real.cos c + Real.sin a * Real.sin b ≤ 1 := by
  have ha := Real.sin_sq_add_cos_sq a
  have hb := Real.sin_sq_add_cos_sq b
  have hc := Real.sin_sq_add_cos_sq c
  have hfac : Real.cos a ^ 2 * Real.cos c ^ 2 + Real.sin a ^ 2 =
      1 - Real.cos a ^ 2 * Real.sin c ^ 2 := by
    linear_combination Real.cos a ^ 2 * hc + ha
  have hb1 : Real.cos b ^ 2 + Real.sin b ^ 2 = 1 := by linarith
  have lag : (Real.cos a * Real.cos b * Real.cos c + Real.sin a * Real.sin b) ^ 2 =
      (Real.cos a ^ 2 * Real.cos c ^ 2 + Real.sin a ^ 2) *
        (Real.cos b ^ 2 + Real.sin b ^ 2) -
        (Real.cos a * Real.cos c * Real.sin b - Real.sin a * Real.cos b) ^ 2 := by
    ring
  rw [hfac, hb1, mul_one] at lag
  have h1 : 0 ≤ Real.cos a ^ 2 * Real.sin c ^ 2 := by positivity
  have h2 : 0 ≤ (Real.cos a * Real.cos c * Real.sin b - Real.sin a * Real.cos b) ^ 2 :=
    sq_nonneg _
  have hsq : (Real.cos a * Real.cos b * Real.cos c + Real.sin a * Real.sin b) ^ 2 ≤ 1 := by
    linarith
  exact abs_le.mp ((sq_le_one_iff_abs_le_one _).mp hsq)

lemma arccos_eq_two_arcsin_sqrt {x : ℝ} (h1 : -1 ≤ x) (h2 : x ≤ 1) :
    Real.arccos x = 2 * Real.arcsin (Real.sqrt ((1 - x) / 2)) := by
  set s := Real.sqrt ((1 - x) / 2) with hs
  have hnn : (0 : ℝ) ≤ (1 - x) / 2 := by linarith
  have hle : (1 - x) / 2 ≤ 1 := by linarith
  have hs0 : 0 ≤ s := Real.sqrt_nonneg _
  have hs1 : s ≤ 1 := Real.sqrt_le_one.mpr hle
  have hsq : s ^ 2 = (1 - x) / 2 := Real.sq_sqrt hnn
  have ha0 : 0 ≤ Real.arcsin s := Real.arcsin_nonneg.mpr hs0
  have hapi : Real.arcsin s ≤ Real.pi / 2 := Real.arcsin_le_pi_div_two _
  apply Real.injOn_cos ⟨Real.arccos_nonneg x, Real.arccos_le_pi x⟩
    ⟨by linarith, by linarith⟩
  rw [Real.cos_arccos h1 h2, Real.cos_two_mul']
  have hsin : Real.sin (Real.arcsin s) = s := Real.sin_arcsin (by linarith) hs1
  have hsin2 : Real.sin (Real.arcsin s) ^ 2 = (1 - x) / 2 := by rw [hsin, hsq]
  have hpyth := Real.sin_sq_add_cos_sq (Real.arcsin s)
  linarith

lemma lawOfCosines_eq_haversineArg (p1 p2 d : ℝ) :
    Real.sin ((p2 - p1) / 2) ^ 2 + Real.cos p1 * Real.cos p2 * Real.sin (d / 2) ^ 2 =
      (1 - (Real.cos p1 * Real.cos p2 * Real.cos d + Real.sin p1 * Real.sin p2)) / 2 := by
  rw [sin_half_sq, sin_half_sq, Real.cos_sub]
  ring

lemma sqlCosineDistance_eq_haversine (lat lng : ℝ) (cafe : Cafe) :
    sqlCosineDistance lat lng cafe =
      haversineDistance lat lng cafe.latitude cafe.longitude := by
  unfold sqlCosineDistance haversineDistance
  obtain ⟨hb1, hb2⟩ :=
    cos_sum_bounds (radians lat) (radians cafe.latitude)
      (radians cafe.longitude - radians lng)
  rw [lawOfCosines_eq_haversineArg, arccos_eq_two_arcsin_sqrt hb1 hb2]
  ring

lemma sqlCosineDistance_nonneg (lat lng : ℝ) (cafe : Cafe) :
    0 ≤ sqlCosineDistance lat lng cafe :=
  mul_nonneg (by norm_num) (Real.arccos_nonneg _)

lemma getCafesNearLocation_neg_radius (cafes : List Cafe) (lat lng radiusKm : ℝ)
    (hr : radiusKm < 0) :
    getCafesNearLocation cafes lat lng radiusKm = Except.ok [] := by
  unfold getCafesNearLocation
  congr 1
  rw [List.filter_eq_nil_iff]
  intro cafe _
  simp only [decide_eq_true_eq]
  intro hle
  have := sqlCosineDistance_nonneg lat lng cafe
  linarith

/-! ### Claim theorems -/

/-- C1: for every preference profile and venue, the fallback score equals
the sum of exactly the applicable rule points of the §4.2 table; for any
mood outside study/work/date/hangout only the mood-independent rules
contribute; and the §8 scenario-A profile/venue pair scores exactly 13. -/
theorem fallback_score_rule_table (q : QuizResponse) (c : Cafe) :
    calculateFallbackScore q c = specRuleTableScore q c ∧
    (q.mood ∉ (["study", "work", "date", "hangout"] : List String) →
      calculateFallbackScore q c = moodIndependentScore q c) ∧
    calculateFallbackScore scenarioAProfile scenarioAVenue = 13 :=
  ⟨score_eq_table q c, score_off_mood q c, by decide⟩

/-- Witness for C1 at a concrete profile with mood "party": the score is
the mood-independent contribution sum. -/
theorem fallback_score_rule_table_witness :
    calculateFallbackScore offMoodQuiz cafeBase =
      moodIndependentScore offMoodQuiz cafeBase :=
  (fallback_score_rule_table offMoodQuiz cafeBase).2.1 (by decide)

/-- C2 counterexample: with a work-mood profile and venues supplied in
ascending score order, the personalized (Recombee) variant's fallback
returns the ids sorted by descending score while the rule-based (Algolia)
variant returns the first ids in input order, so the two differ. -/
theorem engines_fallback_differ_counterexample :
    RecombeeRecommendationEngine.getFallbackRecommendations quizWork
        [cafeBase, cafeWorkFriendly] ≠
      AlgoliaRecommendationEngine.getFallbackRecommendations quizWork
        [cafeBase, cafeWorkFriendly] := by
  have h : RecombeeRecommendationEngine.scoredCafes quizWork
      [cafeBase, cafeWorkFriendly] = [⟨1, 0⟩, ⟨2, 4⟩] := by decide
  unfold RecombeeRecommendationEngine.getFallbackRecommendations
    RecombeeRecommendationEngine.sortedScoredCafes
  rw [h, mergeSort_pair]
  decide

/-- C2 (amended): the two variants' fallbacks agree whenever the supplied
venues are already in non-increasing score order and number at most 5;
in general they differ, because the rule-based variant ignores the scorer
and returns the first `min(5, n)` ids in input order. -/
theorem engines_agree_when_short_sorted (q : QuizResponse) (cafes : List Cafe)
    (h5 : cafes.length ≤ 5)
    (hsorted : List.Pairwise
      (fun a b => calculateFallbackScore q b ≤ calculateFallbackScore q a) cafes) :
    RecombeeRecommendationEngine.getFallbackRecommendations q cafes =
      AlgoliaRecommendationEngine.getFallbackRecommendations q cafes := by
  unfold RecombeeRecommendationEngine.getFallbackRecommendations
    AlgoliaRecommendationEngine.getFallbackRecommendations
    RecombeeRecommendationEngine.sortedScoredCafes
  have hlen : (RecombeeRecommendationEngine.scoredCafes q cafes).length = cafes.length := by
    simp [RecombeeRecommendationEngine.scoredCafes]
  have hp : List.Pairwise (fun a b : ScoredCafe => byScoreDesc a b)
      (RecombeeRecommendationEngine.scoredCafes q cafes) := by
    unfold RecombeeRecommendationEngine.scoredCafes
    rw [List.pairwise_map]
    exact hsorted.imp fun hab => by simpa [byScoreDesc] using hab
  rw [List.mergeSort_of_sorted hp, List.take_of_length_le (by omega),
    List.take_of_length_le h5]
  simp [RecombeeRecommendationEngine.scoredCafes, List.map_map, Function.comp]

/-- Witness for the amended C2 at a single venue. -/
theorem engines_agree_when_short_sorted_witness :
    RecombeeRecommendationEngine.getFallbackRecommendations quizWork [cafeBase] =
      AlgoliaRecommendationEngine.getFallbackRecommendations quizWork [cafeBase] :=
  engines_agree_when_short_sorted quizWork [cafeBase] (by simp) (by simp)

/-- C3 counterexample: the code's rank has no limit parameter, so the
claimed length `min(limit, n)` fails for any limit other than the fixed
10 — here limit 0 with one venue, where the code still returns one id. -/
theorem rank_fixed_truncation_counterexample :
    (RecombeeRecommendationEngine.getFallbackRecommendations quizWork
        [cafeBase]).length ≠
      min 0 ([cafeBase] : List Cafe).length := by
  have h : RecombeeRecommendationEngine.scoredCafes quizWork [cafeBase] =
      [⟨1, 0⟩] := by decide
  unfold RecombeeRecommendationEngine.getFallbackRecommendations
    RecombeeRecommendationEngine.sortedScoredCafes
  rw [h]
  simp

/-- C3 (amended): rank always truncates to the fixed default of 10:
the output length is `min(10, number of venues)`, and an empty venue
list yields the empty sequence rather than an error. -/
theorem rank_length (q : QuizResponse) (cafes : List Cafe) :
    (RecombeeRecommendationEngine.getFallbackRecommendations q cafes).length =
      min 10 cafes.length ∧
    RecombeeRecommendationEngine.getFallbackRecommendations q [] = [] := by
  constructor
  · unfold RecombeeRecommendationEngine.getFallbackRecommendations
      RecombeeRecommendationEngine.sortedScoredCafes
      RecombeeRecommendationEngine.scoredCafes
    simp [List.length_take]
  · simp [RecombeeRecommendationEngine.getFallbackRecommendations,
      RecombeeRecommendationEngine.sortedScoredCafes,
      RecombeeRecommendationEngine.scoredCafes]

/-- C4: the ranked scored list is ordered by non-increasing score, the
returned identifiers are its first ten ids, and the sort is stable: two
equally scored entries keep their relative input order. -/
theorem rank_sorted_stable (q : QuizResponse) (cafes : List Cafe) :
    List.Pairwise (fun a b : ScoredCafe => b.score ≤ a.score)
      ((RecombeeRecommendationEngine.sortedScoredCafes q cafes).take 10) ∧
    RecombeeRecommendationEngine.getFallbackRecommendations q cafes =
      ((RecombeeRecommendationEngine.sortedScoredCafes q cafes).take 10).map
        (fun item => item.id) ∧
    ∀ a b : ScoredCafe, a.score = b.score →
      [a, b].Sublist (RecombeeRecommendationEngine.scoredCafes q cafes) →
      [a, b].Sublist (RecombeeRecommendationEngine.sortedScoredCafes q cafes) := by
  refine ⟨?_, rfl, ?_⟩
  · have h := List.sorted_mergeSort byScoreDesc_trans byScoreDesc_total
      (RecombeeRecommendationEngine.scoredCafes q cafes)
    have h2 : List.Pairwise (fun a b : ScoredCafe => b.score ≤ a.score)
        ((RecombeeRecommendationEngine.scoredCafes q cafes).mergeSort byScoreDesc) :=
      h.imp fun hab => by simpa [byScoreDesc] using hab
    exact List.Pairwise.sublist
      (List.take_sublist 10 (RecombeeRecommendationEngine.sortedScoredCafes q cafes)) h2
  · intro a b hscore hsub
    exact List.pair_sublist_mergeSort byScoreDesc_trans byScoreDesc_total
      (by simp [byScoreDesc, hscore]) hsub

/-- Witness for C4: two equally scored venues (ids 1 and 2) keep their
input order in the sorted scored list. -/
theorem rank_sorted_stable_witness :
    ([⟨1, 0⟩, ⟨2, 0⟩] : List ScoredCafe).Sublist
      (RecombeeRecommendationEngine.sortedScoredCafes quizWork
        [cafeBase, cafeSecond]) :=
  (rank_sorted_stable quizWork [cafeBase, cafeSecond]).2.2 ⟨1, 0⟩ ⟨2, 0⟩ rfl
    (by
      have h : RecombeeRecommendationEngine.scoredCafes quizWork
          [cafeBase, cafeSecond] = [⟨1, 0⟩, ⟨2, 0⟩] := by decide
      rw [h])

/-- C5: the recommendations route returns the personalized id list when
non-empty; otherwise the fallback ids from the stored profile and the
full venue set; and the empty sequence when there is no stored profile. -/
theorem route_recommendation_ids (personalizedIds : List Int)
    (oquiz : Option QuizResponse) (allCafes : List Cafe) :
    (personalizedIds ≠ [] →
      recommendationIds personalizedIds oquiz allCafes = personalizedIds) ∧
    (∀ q, recommendationIds [] (some q) allCafes =
      RecombeeRecommendationEngine.getFallbackRecommendations q allCafes) ∧
    recommendationIds [] none allCafes = [] := by
  refine ⟨?_, fun q => rfl, rfl⟩
  intro hne
  unfold recommendationIds
  rw [if_neg (by simpa using hne)]

/-- Witness for C5: a non-empty personalized list is returned unchanged. -/
theorem route_recommendation_ids_witness :
    recommendationIds [7] none [] = [7] :=
  (route_recommendation_ids [7] none []).1 (by simp)

/-- C6: for a non-negative radius, the geo filter returns (without error)
exactly the venues whose haversine great-circle distance from the center
on a sphere of radius 6371 km is at most the radius (inclusive), in input
order — the SQL law-of-cosines form is an equivalent closed form. -/
theorem selectNear_spec (cafes : List Cafe) (lat lng radiusKm : ℝ)
    (_hr : 0 ≤ radiusKm) :
    ∃ result, getCafesNearLocation cafes lat lng radiusKm = Except.ok result ∧
      result.Sublist cafes ∧
      ∀ cafe, cafe ∈ result ↔ cafe ∈ cafes ∧
        haversineDistance lat lng cafe.latitude cafe.longitude ≤ radiusKm := by
  classical
  refine ⟨_, rfl, List.filter_sublist _, fun cafe => ?_⟩
  rw [List.mem_filter]
  simp only [decide_eq_true_eq, sqlCosineDistance_eq_haversine]

/-- Witness for C6 at radius 0 and the empty venue list. -/
theorem selectNear_spec_witness :
    ∃ result, getCafesNearLocation [] 0 0 0 = Except.ok result ∧
      result.Sublist [] ∧
      ∀ cafe, cafe ∈ result ↔ cafe ∈ ([] : List Cafe) ∧
        haversineDistance 0 0 cafe.latitude cafe.longitude ≤ 0 :=
  selectNear_spec [] 0 0 0 le_rfl

/-- C7 counterexample: a negative radius does not fail with an
InvalidArgument error — the call silently returns the (empty) result. -/
theorem selectNear_negative_radius_counterexample :
    getCafesNearLocation [cafeBase] 0 0 (-1) = Except.ok [] ∧
      getCafesNearLocation [cafeBase] 0 0 (-1) ≠
        Except.error StorageError.invalidArgument := by
  have h := getCafesNearLocation_neg_radius [cafeBase] 0 0 (-1) (by norm_num)
  exact ⟨h, by rw [h]; exact fun hc => Except.noConfusion hc⟩

/-- C7 (amended): a negative radius is not rejected; since every
law-of-cosines distance is non-negative, the filter silently returns the
empty list. -/
theorem selectNear_negative_radius (cafes : List Cafe) (lat lng radiusKm : ℝ)
    (hr : radiusKm < 0) :
    getCafesNearLocation cafes lat lng radiusKm = Except.ok [] :=
  getCafesNearLocation_neg_radius cafes lat lng radiusKm hr

/-- Witness for the amended C7 at radius -5. -/
theorem selectNear_negative_radius_witness :
    getCafesNearLocation [] 1 2 (-5) = Except.ok [] :=
  selectNear_negative_radius [] 1 2 (-5) (by norm_num)

/-- C8: after any sequence of prior ingestion calls, `getRecommendations`
returns the empty list for both engine variants. -/
theorem recommend_returns_empty (calls : List EngineCall) (userId count : Int) :
    RecombeeRecommendationEngine.getRecommendations
        (RecombeeRecommendationEngine.State.initial.replay calls) userId count = [] ∧
      AlgoliaRecommendationEngine.getRecommendations userId count = [] :=
  ⟨rfl, rfl⟩

/-- C9: every fallback score is a non-negative integer. -/
theorem fallback_score_nonneg (q : QuizResponse) (c : Cafe) :
    0 ≤ calculateFallbackScore q c := by
  rw [score_eq_table]
  unfold specRuleTableScore
  have hp : ∀ (p : Prop) (inst : Decidable p) (k : Int),
      0 ≤ k → 0 ≤ (if p then k else 0) := by
    intro p inst k hk
    split
    · omega
    · omega
  repeat apply add_nonneg
  all_goals exact hp _ _ _ (by norm_num)

/-- C10: every id returned by either variant's fallback comes from the
supplied venues, and distinct input ids give duplicate-free output. -/
theorem fallback_ids_within_input (q : QuizResponse) (cafes : List Cafe) :
    (∀ i ∈ RecombeeRecommendationEngine.getFallbackRecommendations q cafes,
        i ∈ cafes.map fun c => c.id) ∧
    (∀ i ∈ AlgoliaRecommendationEngine.getFallbackRecommendations q cafes,
        i ∈ cafes.map fun c => c.id) ∧
    ((cafes.map fun c => c.id).Nodup →
      (RecombeeRecommendationEngine.getFallbackRecommendations q cafes).Nodup ∧
      (AlgoliaRecommendationEngine.getFallbackRecommendations q cafes).Nodup) := by
  refine ⟨?_, ?_, ?_⟩
  · intro i hi
    unfold RecombeeRecommendationEngine.getFallbackRecommendations
      RecombeeRecommendationEngine.sortedScoredCafes at hi
    obtain ⟨s, hs, rfl⟩ := List.mem_map.mp hi
    have hs2 : s ∈ (RecombeeRecommendationEngine.scoredCafes q cafes).mergeSort
        byScoreDesc := List.mem_of_mem_take hs
    rw [List.mem_mergeSort] at hs2
    exact ids_scoredCafes q cafes ▸ List.mem_map_of_mem _ hs2
  · intro i hi
    unfold AlgoliaRecommendationEngine.getFallbackRecommendations at hi
    obtain ⟨c, hc, rfl⟩ := List.mem_map.mp hi
    exact List.mem_map_of_mem _ (List.mem_of_mem_take hc)
  · intro hnd
    constructor
    · have hperm : List.Perm
          (((RecombeeRecommendationEngine.scoredCafes q cafes).mergeSort
            byScoreDesc).map fun s => s.id)
          ((RecombeeRecommendationEngine.scoredCafes q cafes).map fun s => s.id) :=
        (List.mergeSort_perm _ _).map _
      have hnd2 : ((((RecombeeRecommendationEngine.scoredCafes q cafes).mergeSort
          byScoreDesc)).map fun s => s.id).Nodup :=
        hperm.nodup_iff.mpr (ids_scoredCafes q cafes ▸ hnd)
      unfold RecombeeRecommendationEngine.getFallbackRecommendations
        RecombeeRecommendationEngine.sortedScoredCafes
      rw [List.map_take]
      exact hnd2.sublist (List.take_sublist _ _)
    · unfold AlgoliaRecommendationEngine.getFallbackRecommendations
      rw [List.map_take]
      exact hnd.sublist (List.take_sublist _ _)

/-- Witness for C10: at two venues with distinct ids, both variants'
outputs are duplicate-free. -/
theorem fallback_ids_within_input_witness :
    (RecombeeRecommendationEngine.getFallbackRecommendations quizWork
        [cafeBase, cafeWorkFriendly]).Nodup ∧
      (AlgoliaRecommendationEngine.getFallbackRecommendations quizWork
        [cafeBase, cafeWorkFriendly]).Nodup :=
  (fallback_ids_within_input quizWork [cafeBase, cafeWorkFriendly]).2.2 (by decide)

end VibeCafe
